import Mathlib

/-!
Verification development for the distributor integration layer of
mw-bi-suite: a shallow embedding, in Lean 4, of the unit/pack-size
parsing (`app/services/units.py`), the search aggregator
(`app/services/search_aggregator.py`), the distributor client base class
(`app/services/distributor_client.py`) and the concrete adapter clients
(`app/services/clients/*.py`), together with theorems settling the
stated behavioural properties.

Modelling conventions:
* Python `Decimal` and `float` arithmetic are modelled by exact rational
  arithmetic over `Rat`; all concrete values appearing in theorems are
  small enough that the two agree.
* Python exceptions are modelled by `Except PyErr`; a `try/except` block
  becomes a `match` on the `Except` value.
* `None` and optional fields are modelled by `Option`; Python truthiness
  of strings/ints/lists is modelled explicitly where the source relies
  on it.
* Network I/O is modelled by passing the responses of the external
  platform as explicit parameters (a response value, or a `Nat`-indexed
  stream of responses for retry loops).
-/

/-- Python exception classes that the modelled code can raise. -/
inductive PyErr where
  | attributeError
  | typeError
  | valueError
  | divisionByZero
  | invalidOperation
  | transportError
  deriving DecidableEq, Repr

/-! ## units.py — base units and conversion tables -/

/-- Base units for ingredient storage (`units.py`, class BaseUnit). -/
inductive BaseUnit where
  | gram
  | milliliter
  | each
  deriving DecidableEq, Repr

/-- WEIGHT_TO_GRAMS lookup table (`units.py` lines 25-42), as a partial map. -/
def WEIGHT_TO_GRAMS : String → Option Rat
  | "g" | "gram" | "grams" => some 1
  | "kg" | "kilogram" | "kilograms" => some 1000
  | "oz" | "ounce" | "ounces" => some (28.3495 : Rat)
  | "lb" | "lbs" | "pound" | "pounds" => some (453.592 : Rat)
  | "#" => some (453.592 : Rat)
  | _ => none

/-- VOLUME_TO_ML lookup table (`units.py` lines 45-80), as a partial map. -/
def VOLUME_TO_ML : String → Option Rat
  | "ml" | "milliliter" | "milliliters" => some 1
  | "l" | "liter" | "liters" | "litre" | "litres" => some 1000
  | "fl oz" | "fl_oz" | "floz" | "fluid ounce" | "fluid ounces" => some (29.5735 : Rat)
  | "cup" | "cups" | "c" => some (236.588 : Rat)
  | "pt" | "pint" | "pints" => some (473.176 : Rat)
  | "qt" | "quart" | "quarts" => some (946.353 : Rat)
  | "gal" | "gallon" | "gallons" => some (3785.41 : Rat)
  | "tbsp" | "tablespoon" | "tablespoons" => some (14.7868 : Rat)
  | "tsp" | "teaspoon" | "teaspoons" => some (4.92892 : Rat)
  | _ => none

/-- Python `\s` whitespace characters (ASCII range; the parsed pack
descriptions are ASCII). -/
def isPySpace (c : Char) : Bool :=
  c = ' ' || c = '\t' || c = '\n' || c = '\r' || c = '\x0b' || c = '\x0c'

/-- Uppercase a string, `str.upper()` on ASCII input. -/
def pyUpper (s : String) : String := String.mk (s.toList.map Char.toUpper)

/-- Lowercase a string, `str.lower()` on ASCII input. -/
def pyLower (s : String) : String := String.mk (s.toList.map Char.toLower)

/-- Strip leading whitespace from a character list. -/
def dropSpaces : List Char → List Char
  | [] => []
  | c :: rest => if isPySpace c then dropSpaces rest else c :: rest

/-- Python `str.strip()`: whitespace removed from both ends. -/
def pyStrip (s : String) : String :=
  String.mk ((dropSpaces ((dropSpaces s.toList.reverse)).reverse))

/-- normalize_unit (`units.py` lines 102-111):
`unit.lower().strip().replace("-", " ").replace("_", " ")`. -/
def normalize_unit (unit : String) : String :=
  String.mk ((pyStrip (pyLower unit)).toList.map (fun c => if c = '-' || c = '_' then ' ' else c))

/-! ## units.py — pack size pattern matching

The regexes FRACTION_PACK_PATTERN and PACK_PATTERNS (`units.py` lines
226-249) are each a concatenation of greedy pieces (`\d+`, `\s*`,
`\d+\.?\d*`, literal separators, an ordered alternation of unit tokens)
whose character classes are pairwise disjoint, so greedy matching with
first-alternative-preference is exactly Python `re` semantics for them;
`re.search` is modelled by trying the match at each start position from
the left. -/

/-- Greedily take the leading run of decimal digits (`\d+` / `\d*`). -/
def takeDigits : List Char → List Char × List Char
  | [] => ([], [])
  | c :: rest =>
    if c.isDigit then
      let (d, r) := takeDigits rest
      (c :: d, r)
    else ([], c :: rest)

/-- Match `\d+`: at least one digit, greedy. -/
def digits1 (cs : List Char) : Option (List Char × List Char) :=
  let (d, r) := takeDigits cs
  if d.isEmpty then none else some (d, r)

/-- Match a single literal character. -/
def litChar (c : Char) : List Char → Option (List Char)
  | x :: rest => if x = c then some rest else none
  | [] => none

/-- Match an ordered alternation of literal tokens: the first alternative
that is a prefix of the input wins (Python `re` alternation when the
alternation ends the pattern or is followed by a nullable tail). -/
def firstAlt (alts : List String) (cs : List Char) : Option (String × List Char) :=
  match alts with
  | [] => none
  | a :: rest =>
    if a.toList.isPrefixOf cs then some (a, cs.drop a.length)
    else firstAlt rest cs

/-- UNIT_PATTERN alternatives, longest-first as in `units.py` line 228. -/
def unitAlts : List String :=
  ["GAL", "GALLON", "QT", "QUART", "PT", "PINT", "ML", "LB", "OZ", "KG", "G", "L"]

/-- Match `\d+\.?\d*`: digits, optional dot, optional more digits. -/
def numTok (cs : List Char) : Option (List Char × List Char) :=
  match digits1 cs with
  | none => none
  | some (d, rest) =>
    match rest with
    | '.' :: rest2 =>
      let (d2, rest3) := takeDigits rest2
      some (d ++ '.' :: d2, rest3)
    | _ => some (d, rest)

/-- Result of matching one of the PACK_PATTERNS at a position: the
captured groups (`none` for an unmatched optional group) and the whole
matched text (`match.group(0)`). -/
structure MatchRes where
  groups : List (Option String)
  g0 : String
  deriving DecidableEq, Repr

/-- Matched text: the prefix of `cs` consumed down to `rest`. -/
def matchedText (cs rest : List Char) : String :=
  String.mk (cs.take (cs.length - rest.length))

/-- FRACTION_PACK_PATTERN `(\d+)\s*/\s*(\d+)\s*/\s*(\d+)\s*(UNIT)`
matched at the start of `cs` (`units.py` lines 232-234). -/
def matchFractionAt (cs : List Char) : Option (String × String × String × String) := do
  let (g1, r1) ← digits1 cs
  let r1 := dropSpaces r1
  let r2 ← litChar '/' r1
  let r2 := dropSpaces r2
  let (g2, r3) ← digits1 r2
  let r3 := dropSpaces r3
  let r4 ← litChar '/' r3
  let r4 := dropSpaces r4
  let (g3, r5) ← digits1 r4
  let r5 := dropSpaces r5
  let (u, _) ← firstAlt unitAlts r5
  some (String.mk g1, String.mk g2, String.mk g3, u)

/-- Pattern `(\d+)\s*/\s*(\d+\.?\d*)\s*(UNIT)` — "36/1LB" (`units.py` line 238). -/
def matchSlashAt (cs : List Char) : Option MatchRes := do
  let (g1, r1) ← digits1 cs
  let r1 := dropSpaces r1
  let r2 ← litChar '/' r1
  let r2 := dropSpaces r2
  let (g2, r3) ← numTok r2
  let r3 := dropSpaces r3
  let (u, r4) ← firstAlt unitAlts r3
  some ⟨[some (String.mk g1), some (String.mk g2), some u], matchedText cs r4⟩

/-- Pattern `(\d+)\s*/\s*(\d+\.?\d*)\s+(UNIT)` — "36/1 LB" (`units.py` line 240). -/
def matchSlashSpaceAt (cs : List Char) : Option MatchRes := do
  let (g1, r1) ← digits1 cs
  let r1 := dropSpaces r1
  let r2 ← litChar '/' r1
  let r2 := dropSpaces r2
  let (g2, r3) ← numTok r2
  match r3 with
  | c :: r3' =>
    if isPySpace c then
      let r4 := dropSpaces r3'
      let (u, r5) ← firstAlt unitAlts r4
      some ⟨[some (String.mk g1), some (String.mk g2), some u], matchedText cs r5⟩
    else none
  | [] => none

/-- Pattern `(\d+)\s*[Xx]\s*(\d+\.?\d*)\s*(UNIT)` — "36X1LB" (`units.py` line 242). -/
def matchXAt (cs : List Char) : Option MatchRes := do
  let (g1, r1) ← digits1 cs
  let r1 := dropSpaces r1
  let r2 ← (match r1 with
    | x :: rest => if x = 'X' || x = 'x' then some rest else none
    | [] => none)
  let r2 := dropSpaces r2
  let (g2, r3) ← numTok r2
  let r3 := dropSpaces r3
  let (u, r4) ← firstAlt unitAlts r3
  some ⟨[some (String.mk g1), some (String.mk g2), some u], matchedText cs r4⟩

/-- Pattern `(\d+)\s*(DZ|DOZ|DOZEN)` — "15DZ" (`units.py` line 244). -/
def matchDozenAt (cs : List Char) : Option MatchRes := do
  let (g1, r1) ← digits1 cs
  let r1 := dropSpaces r1
  let (t, r2) ← firstAlt ["DZ", "DOZ", "DOZEN"] r1
  some ⟨[some (String.mk g1), some t], matchedText cs r2⟩

/-- Pattern `(\d+\.?\d*)\s*(UNIT)\s*(CS|CASE|BX|BOX|PK|PACK)?` — "10LB CS"
(`units.py` line 246); the third group is optional and may be absent. -/
def matchCaseAt (cs : List Char) : Option MatchRes := do
  let (g1, r1) ← numTok cs
  let r1 := dropSpaces r1
  let (u, r2) ← firstAlt unitAlts r1
  let r3 := dropSpaces r2
  match firstAlt ["CS", "CASE", "BX", "BOX", "PK", "PACK"] r3 with
  | some (t, r4) =>
    some ⟨[some (String.mk g1), some u, some t], matchedText cs r4⟩
  | none =>
    some ⟨[some (String.mk g1), some u, none], matchedText cs r3⟩

/-- Pattern `(\d+)\s*(CT|EA|PC|EACH)` — "4CT" (`units.py` line 248). -/
def matchCountAt (cs : List Char) : Option MatchRes := do
  let (g1, r1) ← digits1 cs
  let r1 := dropSpaces r1
  let (t, r2) ← firstAlt ["CT", "EA", "PC", "EACH"] r1
  some ⟨[some (String.mk g1), some t], matchedText cs r2⟩

/-- Model of `re.search`: try the matcher at every start position, from
the left; the first position where it succeeds wins. -/
def searchM {α : Type} (m : List Char → Option α) : List Char → Option α
  | [] => m []
  | c :: rest =>
    match m (c :: rest) with
    | some r => some r
    | none => searchM m rest

/-! ## units.py — PackInfo and parse_pack_description -/

/-- Parsed pack size information (`units.py`, class PackInfo, lines
252-275). The class defines the attributes listed here and a
`total_quantity` property; it does not define a `get` method. -/
structure PackInfo where
  pack_quantity : Rat
  unit_quantity : Rat
  unit : String
  total_base_units : Option Rat := none
  base_unit : Option BaseUnit := none
  deriving DecidableEq, Repr

/-- `total_quantity` property of PackInfo (`units.py` lines 269-272). -/
def PackInfo.total_quantity (p : PackInfo) : Rat :=
  p.pack_quantity * p.unit_quantity

/-- The value of one attribute of a PackInfo instance. -/
inductive PackAttr where
  | num (q : Rat)
  | str (s : String)
  | optNum (q : Option Rat)
  | optBase (b : Option BaseUnit)
  deriving DecidableEq, Repr

/-- Python attribute lookup on a PackInfo instance: exactly the names
set in `PackInfo.__init__` plus the `total_quantity` property are
defined; any other name (in particular `get`) raises AttributeError. -/
def PackInfo.getattr (p : PackInfo) (name : String) : Except PyErr PackAttr :=
  match name with
  | "pack_quantity" => .ok (.num p.pack_quantity)
  | "unit_quantity" => .ok (.num p.unit_quantity)
  | "unit" => .ok (.str p.unit)
  | "total_base_units" => .ok (.optNum p.total_base_units)
  | "base_unit" => .ok (.optBase p.base_unit)
  | "total_quantity" => .ok (.num p.total_quantity)
  | _ => .error .attributeError

/-- Numeric value of a digit run. -/
def natOfDigits (cs : List Char) : Nat :=
  cs.foldl (fun a c => a * 10 + (c.toNat - '0'.toNat)) 0

/-- Model of the Python `Decimal(str)` constructor restricted to the
group strings reachable in `parse_pack_description`: the groups are
either `\d+` / `\d+\.?\d*` tokens (parsed exactly) or alphabetic unit
strings, for which `Decimal` raises InvalidOperation (modelled by
returning `none`). -/
def pyDecimal? (s : String) : Option Rat :=
  match s.toList with
  | [] => none
  | cs =>
    let (d, r) := takeDigits cs
    if d.isEmpty then none
    else
      match r with
      | [] => some (natOfDigits d : Rat)
      | '.' :: r2 =>
        let (d2, r3) := takeDigits r2
        if r3.isEmpty then
          some ((natOfDigits d : Rat) + (natOfDigits d2 : Rat) / ((10 : Rat) ^ d2.length))
        else none
      | _ => none

/-- `Decimal(s)`, raising InvalidOperation on a non-numeric string. -/
def pyDecimal (s : String) : Except PyErr Rat :=
  match pyDecimal? s with
  | some q => .ok q
  | none => .error .invalidOperation

/-- Shared tail of the pattern branches in `parse_pack_description`
(`units.py` lines 356-366 and 307-316): normalize the unit, look it up
in WEIGHT_TO_GRAMS then VOLUME_TO_ML, and build the PackInfo; `none`
means neither table matched and the pattern loop falls through. -/
def mkPackWeightOrVolume (pack_qty unit_qty : Rat) (unit : String) : Option PackInfo :=
  let normalized_unit := normalize_unit unit
  match WEIGHT_TO_GRAMS normalized_unit with
  | some f =>
    some ⟨pack_qty, unit_qty, unit, some (pack_qty * unit_qty * f), some .gram⟩
  | none =>
    match VOLUME_TO_ML normalized_unit with
    | some f =>
      some ⟨pack_qty, unit_qty, unit, some (pack_qty * unit_qty * f), some .milliliter⟩
    | none => none

/-- Processing of one PACK_PATTERNS match (`units.py` lines 319-366):
`.ok (some pi)` models `return PackInfo(...)`, `.ok none` models falling
through to the next pattern, `.error` models an uncaught exception. -/
def processMatch (mr : MatchRes) : Except PyErr (Option PackInfo) :=
  match mr.groups with
  | [some g1, some g2] =>
    if g2 = "DZ" || g2 = "DOZ" || g2 = "DOZEN" then
      match pyDecimal g1 with
      | .error e => .error e
      | .ok pack_qty =>
        .ok (some ⟨pack_qty, 12, "each", some (pack_qty * 12), some .each⟩)
    else
      match pyDecimal g1 with
      | .error e => .error e
      | .ok pack_qty =>
        .ok (some ⟨pack_qty, 1, "each", some pack_qty, some .each⟩)
  | [some g1, some g2, g3] =>
    if ('/' ∈ mr.g0.toList) || ('X' ∈ (pyUpper mr.g0).toList) then
      match pyDecimal g1 with
      | .error e => .error e
      | .ok pack_qty =>
        match pyDecimal g2 with
        | .error e => .error e
        | .ok unit_qty =>
          match g3 with
          | some unit => .ok (mkPackWeightOrVolume pack_qty unit_qty unit)
          | none => .error .attributeError
    else
      match pyDecimal g1 with
      | .error e => .error e
      | .ok unit_qty =>
        .ok (mkPackWeightOrVolume 1 unit_qty g2)
  | _ => .ok none

/-- The PACK_PATTERNS list in order (`units.py` lines 236-249). -/
def packPatterns : List (List Char → Option MatchRes) :=
  [matchSlashAt, matchSlashSpaceAt, matchXAt, matchDozenAt, matchCaseAt, matchCountAt]

/-- The `for pattern in PACK_PATTERNS` loop of `parse_pack_description`. -/
def loopPatterns : List (List Char → Option MatchRes) → List Char →
    Except PyErr (Option PackInfo)
  | [], _ => .ok none
  | p :: ps, u =>
    match searchM p u with
    | none => loopPatterns ps u
    | some mr =>
      match processMatch mr with
      | .error e => .error e
      | .ok (some pi) => .ok (some pi)
      | .ok none => loopPatterns ps u

/-- parse_pack_description (`units.py` lines 278-368): the fraction
pattern is tried first, then the standard patterns in order; returns
`.ok none` when nothing matched, and `.error` when a Decimal
construction or the fraction division raises. -/
def parse_pack_description (description : String) : Except PyErr (Option PackInfo) :=
  let u := (pyUpper description).toList
  match searchM matchFractionAt u with
  | some (g1, g2, g3, unit) =>
    (match pyDecimal g1 with
     | .error e => .error e
     | .ok pack_qty =>
       match pyDecimal g2 with
       | .error e => .error e
       | .ok numerator =>
         match pyDecimal g3 with
         | .error e => .error e
         | .ok denominator =>
           if denominator = 0 then .error .divisionByZero
           else
             let unit_qty := numerator / denominator
             match mkPackWeightOrVolume pack_qty unit_qty unit with
             | some pi => .ok (some pi)
             | none => loopPatterns packPatterns u)
  | none => loopPatterns packPatterns u

/-! ## distributor_client.py — data model -/

/-- SearchResult dataclass (`distributor_client.py` lines 62-75). -/
structure SearchResult where
  sku : String
  description : String
  price_cents : Option Int := none
  pack_size : Option String := none
  pack_unit : Option String := none
  in_stock : Option Bool := none
  product_url : Option String := none
  image_url : Option String := none
  category : Option String := none
  product_id : Option String := none
  deriving DecidableEq, Repr

/-- CartItem dataclass (`distributor_client.py` lines 78-87). -/
structure CartItem where
  sku : String
  description : String
  quantity : Int
  unit_price_cents : Option Int := none
  extended_price_cents : Option Int := none
  product_id : Option String := none
  deriving DecidableEq, Repr

/-- Cart dataclass (`distributor_client.py` lines 90-99). -/
structure Cart where
  items : List CartItem
  subtotal_cents : Int
  tax_cents : Int := 0
  shipping_cents : Int := 0
  total_cents : Int := 0
  cart_id : Option String := none
  deriving DecidableEq, Repr

/-- The fields of the Distributor model row used by the search
aggregator (`app/models/distributor.py`). -/
structure DistributorRow where
  id : Nat
  name : String
  is_active : Bool
  ordering_enabled : Bool
  deriving DecidableEq, Repr

/-! ## search_aggregator.py — result normalization -/

/-- One normalized result record as built by
`SearchAggregator._normalize_result` (`search_aggregator.py` lines
226-240); the fields not involved in the claims carry the same data as
the source dict. -/
structure NormalizedResult where
  dist_ingredient_id : Option Nat
  distributor_id : Nat
  distributor_name : String
  sku : String
  description : String
  pack_size : Option String
  pack_unit : Option String
  price_cents : Option Int
  price_per_base_unit_cents : Option Int
  in_stock : Option Bool
  image_url : Option String
  deriving DecidableEq, Repr

/-- The try-block of the normalized-price computation
(`search_aggregator.py` lines 219-224):

    total_grams = pack_info.get("total_grams") or pack_info.get("total_ml")
    if total_grams:
        price_per_base_unit = int(api_result.price_cents / total_grams)

`pack_info` is the PackInfo returned by `parse_pack_description`; the
attribute lookup `pack_info.get` raises AttributeError (PackInfo defines
no `get`), so the call never happens; were the lookup to succeed,
calling a non-callable attribute would raise TypeError. -/
def normalizePriceTry (pi : PackInfo) : Except PyErr (Option Int) :=
  match pi.getattr "get" with
  | .error e => .error e
  | .ok _ => .error .typeError

/-- The `price_per_base_unit` computation of `_normalize_result`
(`search_aggregator.py` lines 216-224): `None` unless
`api_result.price_cents` is truthy (non-None and non-zero) and
`pack_info` is present; the try-block's exception is swallowed by
`except Exception: pass`. -/
def pricePerBaseUnit (price_cents : Option Int) (pack_info : Option PackInfo) : Option Int :=
  match price_cents, pack_info with
  | some pc, some pi =>
    if pc = 0 then none
    else
      match normalizePriceTry pi with
      | .ok v => v
      | .error _ => none
  | _, _ => none

/-- The `pack_info` computation of `_normalize_result`
(`search_aggregator.py` lines 208-214): parse the pack size when it is
truthy, swallowing any exception from `parse_pack_description`. -/
def packInfoOf (pack_size : Option String) : Option PackInfo :=
  match pack_size with
  | some ps =>
    if ps ≠ "" then
      match parse_pack_description ps with
      | .ok pi => pi
      | .error _ => none
    else none
  | none => none

/-- SearchAggregator._normalize_result (`search_aggregator.py` lines
190-240). The dist_ingredient database lookup is modelled by the
`dist_ingredient_id` parameter; `delivery_days` and
`last_ordered_date` are omitted (constant / not claim-relevant). -/
def normalize_result (distributor : DistributorRow) (dist_ingredient_id : Option Nat)
    (api_result : SearchResult) : NormalizedResult :=
  let pack_info := packInfoOf api_result.pack_size
  { dist_ingredient_id := dist_ingredient_id
    distributor_id := distributor.id
    distributor_name := distributor.name
    sku := api_result.sku
    description := api_result.description
    pack_size := api_result.pack_size
    pack_unit := api_result.pack_unit
    price_cents := api_result.price_cents
    price_per_base_unit_cents := pricePerBaseUnit api_result.price_cents pack_info
    in_stock := api_result.in_stock
    image_url := api_result.image_url }

/-! ## search_aggregator.py — search_all -/

/-- One per-distributor entry of the aggregate (`search_aggregator.py`
lines 83-95). -/
structure DistributorEntry where
  distributor_id : Nat
  distributor_name : String
  results : List NormalizedResult
  error : Option String
  deriving DecidableEq, Repr

/-- The aggregate returned by search_all (`search_aggregator.py` lines
100-105). -/
structure AggregatedSearch where
  query : String
  distributors : List DistributorEntry
  total_results : Nat
  search_duration_ms : Nat
  deriving DecidableEq, Repr

/-- Resolution of the distributor set (`search_aggregator.py` lines
51-59): active, ordering-enabled distributors, optionally narrowed to a
caller-supplied id subset; `if distributor_ids:` means a `None` or empty
list applies no narrowing. -/
def resolveDistributors (all_rows : List DistributorRow) (distributor_ids : Option (List Nat)) :
    List DistributorRow :=
  let enabled := all_rows.filter (fun d => d.is_active && d.ordering_enabled)
  match distributor_ids with
  | some ids => if ids.isEmpty then enabled else enabled.filter (fun d => d.id ∈ ids)
  | none => enabled

/-- SearchAggregator.search_all (`search_aggregator.py` lines 32-105).
The per-distributor tasks run through `asyncio.gather(...,
return_exceptions=True)`; each task's outcome is modelled by `outcome`:
`.ok results` for a task that returned, `.error msg` for a task that
raised (msg = `str(exception)`). `duration_ms` models the elapsed-time
measurement. -/
def search_all (query : String) (all_rows : List DistributorRow)
    (distributor_ids : Option (List Nat))
    (outcome : DistributorRow → Except String (List NormalizedResult))
    (duration_ms : Nat) : AggregatedSearch :=
  let distributors := resolveDistributors all_rows distributor_ids
  if distributors.isEmpty then
    { query := query, distributors := [], total_results := 0, search_duration_ms := 0 }
  else
    let entries := distributors.map (fun d =>
      match outcome d with
      | .error e =>
        { distributor_id := d.id, distributor_name := d.name
          results := [], error := some e : DistributorEntry }
      | .ok rs =>
        { distributor_id := d.id, distributor_name := d.name
          results := rs, error := none })
    { query := query
      distributors := entries
      total_results := (entries.map (fun e => e.results.length)).sum
      search_duration_ms := duration_ms }

/-! ## order_hub.py / distributor_client.py — session lifecycle -/

/-- A DistributorSession row (`app/models/order_hub.py` lines 82-107):
cookies, headers, auth token, expiry and last-used timestamps, all
nullable. Timestamps are modelled as `Nat` instants. -/
structure DistributorSession where
  cookies : Option (List (String × String)) := none
  headers : Option (List (String × String)) := none
  auth_token : Option String := none
  expires_at : Option Nat := none
  last_used_at : Option Nat := none
  deriving DecidableEq, Repr

/-- DistributorSession.is_expired (`order_hub.py` lines 109-114): a null
expiry never expires; otherwise expired iff `utcnow() > expires_at`. -/
def DistributorSession.is_expired (now : Nat) (s : DistributorSession) : Bool :=
  match s.expires_at with
  | none => false
  | some t => now > t

/-- DistributorApiClient.ensure_authenticated (`distributor_client.py`
lines 249-270): return `(result, authenticate_called)`. A stored,
unexpired session short-circuits to `true` with no authentication call;
otherwise `authenticate()` runs and its result (modelled by
`auth_result`) is returned. -/
def ensure_authenticated (now : Nat) (session : Option DistributorSession)
    (auth_result : Bool) : Bool × Bool :=
  match session with
  | some s => if ¬ s.is_expired now then (true, false) else (auth_result, true)
  | none => (auth_result, true)

/-- DistributorApiClient._save_session (`distributor_client.py` lines
209-239): load the prior session (a fresh row with all-null fields when
absent), overwrite exactly the provided fields, stamp last_used_at, and
return the saved row; `_load_session` afterwards returns this same
cached row (lines 201-207, 238). -/
def save_session (prior : Option DistributorSession)
    (cookies headers : Option (List (String × String)))
    (auth_token : Option String) (expires_at : Option Nat) (now : Nat) :
    DistributorSession :=
  let s := prior.getD {}
  { cookies := match cookies with | some c => some c | none => s.cookies
    headers := match headers with | some h => some h | none => s.headers
    auth_token := match auth_token with | some a => some a | none => s.auth_token
    expires_at := match expires_at with | some e => some e | none => s.expires_at
    last_used_at := some now }

/-! ## distributor_client.py — default cart mutation helpers -/

/-- A cart mutation issued by the generic cart helpers. -/
inductive CartOp where
  | clear
  | add (sku : String) (quantity : Int)
  deriving DecidableEq, Repr

/-- DistributorApiClient.remove_from_cart default implementation
(`distributor_client.py` lines 330-353): read the cart, keep the items
whose SKU differs, and if nothing was removed return `False` before any
mutation; otherwise clear and re-add the kept items. Returns the
success flag and the list of mutation calls issued. -/
def remove_from_cart (cart : Cart) (sku : String) : Bool × List CartOp :=
  let items_to_keep := cart.items.filter (fun item => item.sku ≠ sku)
  if items_to_keep.length = cart.items.length then (false, [])
  else (true, CartOp.clear :: items_to_keep.map (fun item => CartOp.add item.sku item.quantity))

/-! ## Python numeric string conversions used by the adapters -/

/-- Model of the Python `float(str)` conversion for finite decimal
literals: optional surrounding whitespace, optional sign, then
`digits[.digits][e[sign]digits]` or `.digits[e[sign]digits]`.
(`inf`/`nan` literals and underscores are outside the model; no adapter
feeds them on the claimed paths.) -/
def pyFloat? (s : String) : Option Rat :=
  let cs := dropSpaces ((dropSpaces (s.toList.reverse)).reverse)
  let (sign, cs) : Rat × List Char :=
    match cs with
    | '-' :: rest => (-1, rest)
    | '+' :: rest => (1, rest)
    | _ => (1, cs)
  let (ip, cs) := takeDigits cs
  let (fp, cs) : List Char × List Char :=
    match cs with
    | '.' :: rest => takeDigits rest
    | _ => ([], cs)
  if ip.isEmpty && fp.isEmpty && (match cs with | '.' :: _ => false | _ => true) then none
  else
    let cs := match cs with | '.' :: rest => rest | _ => cs
    let mantissa : Rat := (natOfDigits ip : Rat) + (natOfDigits fp : Rat) / ((10 : Rat) ^ fp.length)
    match cs with
    | [] => some (sign * mantissa)
    | 'e' :: rest | 'E' :: rest =>
      let (esign, rest) : Int × List Char :=
        match rest with
        | '-' :: r => (-1, r)
        | '+' :: r => (1, r)
        | _ => (1, rest)
      let (ed, rest) := takeDigits rest
      if ed.isEmpty ∨ ¬ rest.isEmpty then none
      else some (sign * mantissa * (10 : Rat) ^ (esign * (natOfDigits ed : Int)))
    | _ => none

/-- Python `int()` applied to a number: truncation toward zero. -/
def pyInt (q : Rat) : Int :=
  if 0 ≤ q then q.floor else -((-q).floor)

/-! ## metro_wholesale_client.py -/

/-- MetroWholesaleClient._parse_price (`metro_wholesale_client.py` lines
134-155): a falsy (empty) string gives 0; `$` and `,` are removed; a
string `float` cannot parse gives 0 (ValueError caught); otherwise
`int(float(cleaned) * 100)`. -/
def metro_parse_price (price_str : String) : Int :=
  if price_str = "" then 0
  else
    let cleaned := String.mk (price_str.toList.filter (fun c => ¬ (c = '$' ∨ c = ',')))
    match pyFloat? cleaned with
    | some q => pyInt (q * 100)
    | none => 0

/-- Login credentials as returned by `get_credentials`: the values of
the `email` and `password` keys (absent key ↦ `none`). -/
structure Credentials where
  email : Option String := none
  password : Option String := none
  deriving DecidableEq, Repr

/-- Substring test: `needle in hay` on Python strings, over char lists. -/
def containsSub (needle : List Char) : List Char → Bool
  | [] => needle.isEmpty
  | c :: rest => needle.isPrefixOf (c :: rest) || containsSub needle rest

/-- Python truthiness of `credentials.get(...)`: `None` and `""` are falsy. -/
def truthyStr : Option String → Bool
  | none => false
  | some s => s ≠ ""

/-- The network half of MetroWholesaleClient.authenticate: the login
exchange (GET login page, POST credentials) either raises (`.error`) or
yields the POST status and the cookie jar. -/
structure MetroLoginExchange where
  status : Nat
  cookies : List (String × String)
  deriving DecidableEq, Repr

/-- MetroWholesaleClient.authenticate (`metro_wholesale_client.py` lines
51-128). Missing credentials or a falsy email/password return `False`;
the whole network exchange sits in `try: ... except Exception: return
False`, so a raised transport error also returns `False`; on HTTP 200
both the with-auth-cookies branch and the warning branch save the
session and return `True`. The result is `Except PyErr Bool` to record
whether any exception escapes: none ever does. -/
def metro_authenticate (credentials : Option Credentials)
    (net : Except PyErr MetroLoginExchange) : Except PyErr Bool :=
  match credentials with
  | none => .ok false
  | some c =>
    if ¬ truthyStr c.email ∨ ¬ truthyStr c.password then .ok false
    else
      match net with
      | .error _ => .ok false
      | .ok ex =>
        if ex.status = 200 then
          if ex.cookies.any (fun kv =>
              containsSub "Application".toList kv.1.toList ||
              containsSub "cwUser".toList kv.1.toList) then
            .ok true
          else
            .ok true
        else .ok false

/-! ## green_market_client.py -/

/-- The network half of GreenMarketClient.authenticate: either a raised
exception, or the CSRF token extracted from the login page
(`_extract_csrf_token(login_page.text)`), the POST status, whether the
final URL still contains `/users/sign_in`, and the cookie jar. -/
structure GreenLoginExchange where
  csrf_token : Option String
  status : Nat
  url_has_sign_in : Bool
  cookies : List (String × String)
  deriving DecidableEq, Repr

/-- GreenMarketClient.authenticate (`green_market_client.py` lines
63-127). Missing/falsy credentials return `False`; a missing CSRF token
returns `False`; success requires HTTP 200 and a final URL away from the
sign-in page; the whole exchange sits in `try: ... except Exception:
return False`, so transport errors also return `False` and nothing
escapes. -/
def green_authenticate (credentials : Option Credentials)
    (net : Except PyErr GreenLoginExchange) : Except PyErr Bool :=
  match credentials with
  | none => .ok false
  | some c =>
    if ¬ truthyStr c.email ∨ ¬ truthyStr c.password then .ok false
    else
      match net with
      | .error _ => .ok false
      | .ok ex =>
        match ex.csrf_token with
        | none => .ok false
        | some _ =>
          if ex.status = 200 ∧ ¬ ex.url_has_sign_in then .ok true
          else .ok false

/-- Python truthiness of the in-memory `_current_order_id`
(`Optional[int]`): `None` and `0` are falsy. -/
def truthyOrderId : Option Int → Bool
  | none => false
  | some n => n ≠ 0

/-- The Green Market order endpoints as seen by one client: the status
and `id` field of the create-order response and the status of the
add-item response. -/
structure GreenOrderServer where
  create_order_status : Nat
  create_order_id : Option Int
  add_item_status : Nat
  deriving DecidableEq, Repr

/-- GreenMarketClient._create_order (`green_market_client.py` lines
280-321): on HTTP 200/201, cache `data.get("id")` as the current order
id and return it; otherwise return `None` leaving the cache unchanged.
Result: (returned order id, new cached order id). -/
def green_create_order (srv : GreenOrderServer) (current_order_id : Option Int) :
    Option Int × Option Int :=
  if srv.create_order_status = 200 ∨ srv.create_order_status = 201 then
    (srv.create_order_id, srv.create_order_id)
  else (none, current_order_id)

/-- GreenMarketClient._ensure_order_exists (`green_market_client.py`
lines 266-278): reuse a truthy cached order id, else create one. Result:
(order id, new cached order id, number of create-order POSTs issued). -/
def green_ensure_order_exists (srv : GreenOrderServer) (current_order_id : Option Int) :
    Option Int × Option Int × Nat :=
  if truthyOrderId current_order_id then (current_order_id, current_order_id, 0)
  else
    let (oid, cache) := green_create_order srv current_order_id
    (oid, cache, 1)

/-- GreenMarketClient.add_to_cart (`green_market_client.py` lines
323-362): ensure an order exists (creating one if needed), fail when no
truthy order id was obtained, else POST the item and succeed on HTTP
200/201. Result: (success, new cached order id, create-order POSTs). -/
def green_add_to_cart (srv : GreenOrderServer) (current_order_id : Option Int) :
    Bool × Option Int × Nat :=
  let (oid, cache, creates) := green_ensure_order_exists srv current_order_id
  if ¬ truthyOrderId oid then (false, cache, creates)
  else ((srv.add_item_status = 200 ∨ srv.add_item_status = 201), cache, creates)

/-- GreenMarketClient.get_cart (`green_market_client.py` lines 364-391):
with no truthy current order id it returns an empty cart without any
request; otherwise it fetches and parses the order (the parsed cart is
modelled by `fetched`). -/
def green_get_cart (fetched : Cart) (current_order_id : Option Int) : Cart :=
  if ¬ truthyOrderId current_order_id then
    { items := [], subtotal_cents := 0, total_cents := 0 }
  else fetched

/-- GreenMarketClient.clear_cart (`green_market_client.py` lines
425-443): no truthy current order → `True`; an empty fetched cart →
`True`; otherwise not implemented → `False`. -/
def green_clear_cart (fetched : Cart) (current_order_id : Option Int) : Bool :=
  if ¬ truthyOrderId current_order_id then true
  else if (green_get_cart fetched current_order_id).items.isEmpty then true
  else false

/-! ## farm_direct_client.py -/

/-- A JSON scalar as found in the `onlinecustomerprice` field: a string,
a number, or JSON null. -/
inductive JVal where
  | jstr (s : String)
  | jnum (q : Rat)
  | jnull
  deriving DecidableEq, Repr

/-- Python `float(x)` on a JSON scalar: numbers pass through, strings go
through the literal parser (ValueError when unparseable), `None` raises
TypeError. -/
def jFloat (v : JVal) : Except PyErr Rat :=
  match v with
  | .jnum q => .ok q
  | .jstr s => match pyFloat? s with
    | some q => .ok q
    | none => .error .valueError
  | .jnull => .error .typeError

/-- One item of a Farm Direct search response
(`farm_direct_client.py` lines 253-271); `none` models an absent key.
`itemimages_detail_url` stands for `item.get("itemimages_detail",
{}).get("url")`. -/
structure FDItem where
  internalid : Option String := none
  displayname : Option String := none
  storedisplayname2 : Option String := none
  onlinecustomerprice : Option JVal := none
  custitem_pack_size : Option String := none
  saleunit : Option String := none
  isinstock : Option Bool := none
  itemimages_detail_url : Option String := none
  commercecategoryname : Option String := none
  deriving DecidableEq, Repr

/-- The price computation of FarmDirectClient._parse_search_response
(`farm_direct_client.py` lines 254-260): `price = 0`, overwritten by
`int(float(item["onlinecustomerprice"]) * 100)` only when the key is
present and the conversion does not raise ValueError/TypeError. -/
def fdItemPrice (onlinecustomerprice : Option JVal) : Int :=
  match onlinecustomerprice with
  | none => 0
  | some v =>
    match jFloat v with
    | .ok q => pyInt (q * 100)
    | .error _ => 0

/-- One SearchResult built by FarmDirectClient._parse_search_response
(`farm_direct_client.py` lines 262-271). `price_cents` is always the
(possibly zero) computed integer, never `None`. -/
def fd_parse_item (item : FDItem) : SearchResult :=
  { sku := item.internalid.getD ""
    description := item.displayname.getD (item.storedisplayname2.getD "")
    price_cents := some (fdItemPrice item.onlinecustomerprice)
    pack_size := item.custitem_pack_size
    pack_unit := item.saleunit
    in_stock := some (item.isinstock.getD true)
    image_url := item.itemimages_detail_url
    category := item.commercecategoryname }

/-- FarmDirectClient._parse_search_response (`farm_direct_client.py`
lines 248-273). -/
def fd_parse_search_response (items : List FDItem) : List SearchResult :=
  items.map fd_parse_item

/-- The JSON body of a Farm Direct response: the `errorCode` field, if
any, and the `items` list. -/
structure FDBody where
  errorCode : Option String := none
  items : List FDItem := []
  deriving DecidableEq, Repr

/-- A Farm Direct HTTP response: status code and JSON body (`none` when
`response.json()` raises). -/
structure FDResponse where
  status : Nat
  body : Option FDBody
  deriving DecidableEq, Repr

/-- FarmDirectClient.search with its session-expiry retry recursion
(`farm_direct_client.py` lines 188-246 with `_handle_session_error` /
`_handle_session_error_data`, lines 275-294). `server n` is the response
to the n-th substantive search request, `auth n` the outcome of the n-th
re-authentication. The Python recursion `return await self.search(query,
limit)` has no retry bound, so the model carries explicit fuel: `none`
means the recursion is still running after `fuel` substantive requests.
On a non-200 status or an embedded `errorCode`, the code retries exactly
when the error code is `ERR_USER_SESSION_TIMED_OUT` and `authenticate()`
succeeded, and otherwise returns `[]`. -/
def fd_search_go (server : Nat → FDResponse) (auth : Nat → Bool) :
    Nat → Nat → Nat → Option (List SearchResult)
  | 0, _, _ => none
  | fuel + 1, req, authN =>
    let resp := server req
    if resp.status ≠ 200 then
      match resp.body with
      | some b =>
        if b.errorCode = some "ERR_USER_SESSION_TIMED_OUT" then
          if auth authN then fd_search_go server auth fuel (req + 1) (authN + 1)
          else some []
        else some []
      | none => some []
    else
      match resp.body with
      | none => some []
      | some b =>
        match b.errorCode with
        | some code =>
          if code = "ERR_USER_SESSION_TIMED_OUT" then
            if auth authN then fd_search_go server auth fuel (req + 1) (authN + 1)
            else some []
          else some []
        | none => some (fd_parse_search_response b.items)

/-- FarmDirectClient.add_to_cart with its session-expiry retry recursion
(`farm_direct_client.py` lines 296-341): HTTP 200 returns `True`;
otherwise retry exactly when `_handle_session_error` re-authenticated
(same unbounded recursion as `search`), else return `False`. -/
def fd_add_to_cart_go (server : Nat → FDResponse) (auth : Nat → Bool) :
    Nat → Nat → Nat → Option Bool
  | 0, _, _ => none
  | fuel + 1, req, authN =>
    let resp := server req
    if resp.status = 200 then some true
    else
      match resp.body with
      | some b =>
        if b.errorCode = some "ERR_USER_SESSION_TIMED_OUT" then
          if auth authN then fd_add_to_cart_go server auth fuel (req + 1) (authN + 1)
          else some false
        else some false
      | none => some false

/-! ## Theorems for the claims -/

/-- Decidable equality for `Except`, so that concrete adapter outcomes
can be checked by `decide`. -/
instance {e a : Type} [DecidableEq e] [DecidableEq a] : DecidableEq (Except e a) := fun x y =>
  match x, y with
  | .ok v, .ok w => decidable_of_iff (v = w) (by simp)
  | .error v, .error w => decidable_of_iff (v = w) (by simp)
  | .ok _, .error _ => isFalse (fun h => Except.noConfusion h)
  | .error _, .ok _ => isFalse (fun h => Except.noConfusion h)

/-- C1: the claim says a parseable pack size with a present price yields
a non-null `price_per_base_unit_cents`. The code refutes it: "4/1GAL" is
parseable by `parse_pack_description` (first conjunct) and the price is
present, yet the normalized record carries a null
`price_per_base_unit_cents` (second conjunct); indeed the field is null
for every input (third conjunct), because `_normalize_result` calls
`pack_info.get("total_grams")` on a PackInfo, which has no `get`
attribute, and the resulting AttributeError is swallowed by
`except Exception: pass`. -/
theorem c1_normalized_price_always_null :
    (∃ pi, parse_pack_description "4/1GAL" = .ok (some pi) ∧
      pi.pack_quantity = 4 ∧ pi.unit_quantity = 1 ∧ pi.unit = "GAL" ∧
      pi.total_base_units = some (15141.64 : Rat) ∧ pi.base_unit = some .milliliter) ∧
    (normalize_result ⟨1, "FarmDirect", true, true⟩ none
      { sku := "S1", description := "MILK 4/1GAL", price_cents := some 1000,
        pack_size := some "4/1GAL" }).price_per_base_unit_cents = none ∧
    ∀ price_cents pack_info, pricePerBaseUnit price_cents pack_info = none := by
  have h4 : '4'.toUpper.toNat - '0'.toNat = 4 := by decide
  have h1 : '1'.toUpper.toNat - '0'.toNat = 1 := by decide
  refine ⟨⟨_, rfl, ?_, ?_, rfl, ?_, rfl⟩, by rfl, ?_⟩
  · norm_num [natOfDigits, h4]
  · norm_num [natOfDigits, h1]
  · norm_num [natOfDigits, h4, h1]
  intro price_cents pack_info
  cases price_cents with
  | none => rfl
  | some pc =>
    cases pack_info with
    | none => rfl
    | some pi =>
      show (if pc = 0 then none
            else match normalizePriceTry pi with
                 | .ok v => v
                 | .error _ => none) = none
      have h : normalizePriceTry pi = .error .attributeError := rfl
      rw [h]
      simp

/-- C2: `search_all` returns exactly one entry per resolved distributor,
in the order of the distributor list; a task that returned gives an
entry with its results and a null error, a task that raised gives an
entry with an empty result list and the exception's string as error; no
per-distributor exception escapes or removes other entries. -/
theorem c2_search_all_one_entry_per_distributor (query : String)
    (all_rows : List DistributorRow) (distributor_ids : Option (List Nat))
    (outcome : DistributorRow → Except String (List NormalizedResult))
    (duration_ms : Nat) :
    (search_all query all_rows distributor_ids outcome duration_ms).distributors =
      (resolveDistributors all_rows distributor_ids).map (fun d =>
        match outcome d with
        | .ok rs => { distributor_id := d.id, distributor_name := d.name,
                      results := rs, error := none }
        | .error e => { distributor_id := d.id, distributor_name := d.name,
                        results := [], error := some e }) ∧
    (search_all query all_rows distributor_ids outcome duration_ms).distributors.length =
      (resolveDistributors all_rows distributor_ids).length := by
  have hmain : (search_all query all_rows distributor_ids outcome duration_ms).distributors =
      (resolveDistributors all_rows distributor_ids).map (fun d =>
        match outcome d with
        | .ok rs => { distributor_id := d.id, distributor_name := d.name,
                      results := rs, error := none }
        | .error e => { distributor_id := d.id, distributor_name := d.name,
                        results := [], error := some e }) := by
    unfold search_all
    by_cases h : (resolveDistributors all_rows distributor_ids).isEmpty
    · have h' : resolveDistributors all_rows distributor_ids = [] :=
        List.isEmpty_iff.mp h
      simp [h, h']
    · simp [h]
      intro a _
      cases outcome a <;> rfl
  exact ⟨hmain, by rw [hmain, List.length_map]⟩

/-- C3: the claim says an adapter operation hitting the session-expired
signal re-authenticates and retries exactly once, surfacing a second
same-signal failure without further retry. The code refutes it: against
a server that answers every substantive request with HTTP 400 and body
`errorCode = ERR_USER_SESSION_TIMED_OUT` while `authenticate()` keeps
succeeding, `FarmDirectClient.search` and `add_to_cart` recurse without
bound (no result within any amount of fuel; first two conjuncts). The
happy half of the claim does hold: a single timeout followed by a good
response completes after exactly one retry (third conjunct, fuel left
over). -/
theorem c3_session_retry_is_unbounded :
    (∀ fuel req authN,
      fd_search_go (fun _ => ⟨400, some ⟨some "ERR_USER_SESSION_TIMED_OUT", []⟩⟩)
        (fun _ => true) fuel req authN = none) ∧
    (∀ fuel req authN,
      fd_add_to_cart_go (fun _ => ⟨400, some ⟨some "ERR_USER_SESSION_TIMED_OUT", []⟩⟩)
        (fun _ => true) fuel req authN = none) ∧
    fd_search_go (fun n => if n = 0 then ⟨400, some ⟨some "ERR_USER_SESSION_TIMED_OUT", []⟩⟩
        else ⟨200, some ⟨none, []⟩⟩) (fun _ => true) 5 0 0 = some [] := by
  refine ⟨?_, ?_, by decide⟩
  · intro fuel
    induction fuel with
    | zero => intro req authN; rfl
    | succ n ih => intro req authN; exact ih (req + 1) (authN + 1)
  · intro fuel
    induction fuel with
    | zero => intro req authN; rfl
    | succ n ih => intro req authN; exact ih (req + 1) (authN + 1)

/-- C4 counterexample: with well-formed credentials and a transport
error raised during the login exchange, `authenticate` returns
`Ok false` for both the MetroWholesale and the GreenMarket adapters —
it does not propagate any exception (the codebase defines no
TransportError at all), contradicting the claim that transport errors
propagate to the caller. -/
theorem c4_counterexample_transport_error_swallowed :
    metro_authenticate (some ⟨some "user@example.com", some "pw"⟩)
      (.error .transportError) = .ok false ∧
    green_authenticate (some ⟨some "user@example.com", some "pw"⟩)
      (.error .transportError) = .ok false ∧
    metro_authenticate (some ⟨some "user@example.com", some "pw"⟩)
      (.error .transportError) ≠ .error .transportError := by
  refine ⟨by decide, by decide, by decide⟩

/-- C4 (amended): for every adapter, `authenticate()` returns `false` on
credential failure (missing credentials, falsy email/password) and never
raises at all: every outcome is an `Ok` boolean, and a raised transport
error in the login exchange is caught by the blanket
`except Exception: return False`, so it surfaces as `false` rather than
propagating as a TransportError. -/
theorem c4_authenticate_never_raises (c : Option Credentials)
    (mnet : Except PyErr MetroLoginExchange) (gnet : Except PyErr GreenLoginExchange)
    (e : PyErr) :
    (∃ b, metro_authenticate c mnet = .ok b) ∧
    (∃ b, green_authenticate c gnet = .ok b) ∧
    metro_authenticate c (.error e) = .ok false ∧
    green_authenticate c (.error e) = .ok false ∧
    metro_authenticate none mnet = .ok false ∧
    green_authenticate none gnet = .ok false := by
  refine ⟨?_, ?_, ?_, ?_, rfl, rfl⟩
  · cases c with
    | none => exact ⟨false, rfl⟩
    | some cred =>
      cases mnet with
      | error err =>
        simp only [metro_authenticate]
        split
        · exact ⟨false, rfl⟩
        · exact ⟨false, rfl⟩
      | ok ex =>
        simp only [metro_authenticate]
        split
        · exact ⟨false, rfl⟩
        · by_cases hs : ex.status = 200
          · rw [if_pos hs]
            split
            · exact ⟨true, rfl⟩
            · exact ⟨true, rfl⟩
          · rw [if_neg hs]
            exact ⟨false, rfl⟩
  · cases c with
    | none => exact ⟨false, rfl⟩
    | some cred =>
      cases gnet with
      | error err =>
        simp only [green_authenticate]
        split
        · exact ⟨false, rfl⟩
        · exact ⟨false, rfl⟩
      | ok ex =>
        simp only [green_authenticate]
        split
        · exact ⟨false, rfl⟩
        · cases hc : ex.csrf_token with
          | none => exact ⟨false, rfl⟩
          | some tok =>
            by_cases hp : ex.status = 200 ∧ ¬ ex.url_has_sign_in = true
            · rw [if_pos hp]
              exact ⟨true, rfl⟩
            · rw [if_neg hp]
              exact ⟨false, rfl⟩
  · cases c with
    | none => rfl
    | some cred =>
      simp only [metro_authenticate]
      split
      · rfl
      · rfl
  · cases c with
    | none => rfl
    | some cred =>
      simp only [green_authenticate]
      split
      · rfl
      · rfl

/-- C5: `ensure_authenticated` treats a stored session whose expiry lies
in the past exactly like an absent session — `authenticate()` is
triggered and its result returned — while a session whose expiry
timestamp is null never expires, so `ensure_authenticated` returns
`true` without calling `authenticate()`. The second component of the
result records whether `authenticate()` was called. -/
theorem c5_expired_session_treated_as_absent (now : Nat)
    (s : DistributorSession) (auth_result : Bool) :
    (∀ t, s.expires_at = some t → t < now →
      ensure_authenticated now (some s) auth_result =
        ensure_authenticated now none auth_result ∧
      ensure_authenticated now (some s) auth_result = (auth_result, true)) ∧
    (s.expires_at = none →
      ensure_authenticated now (some s) auth_result = (true, false)) := by
  constructor
  · intro t ht hlt
    have hexp : s.is_expired now = true := by
      unfold DistributorSession.is_expired
      rw [ht]
      exact decide_eq_true hlt
    constructor
    · show (if ¬ s.is_expired now then (true, false) else (auth_result, true)) =
        (auth_result, true)
      rw [hexp]
      simp
    · show (if ¬ s.is_expired now then (true, false) else (auth_result, true)) =
        (auth_result, true)
      rw [hexp]
      simp
  · intro ht
    have hexp : s.is_expired now = false := by
      unfold DistributorSession.is_expired
      rw [ht]
    show (if ¬ s.is_expired now then (true, false) else (auth_result, true)) = (true, false)
    rw [hexp]
    simp

/-- Witness for C5 at concrete inputs: a session expired at instant 3 is
handled at instant 10 exactly like an absent session (authenticate runs,
its failure is returned), and a session with a null expiry yields `true`
with no authenticate call. -/
theorem c5_witness :
    ensure_authenticated 10 (some { expires_at := some 3 }) false =
      ensure_authenticated 10 none false ∧
    ensure_authenticated 10 (some { expires_at := some 3 }) false = (false, true) ∧
    ensure_authenticated 10 (some {}) false = (true, false) := by
  have h1 := (c5_expired_session_treated_as_absent 10 { expires_at := some 3 } false).1
    3 rfl (by decide)
  have h2 := (c5_expired_session_treated_as_absent 10 {} false).2 rfl
  exact ⟨h1.1, h1.2, h2⟩

/-- C7: for the order-first GreenMarket adapter, `add_to_cart` with no
current order id creates exactly one purchase order (one create-order
POST), caches its id, and adds the item; a subsequent `add_to_cart` on
the same instance reuses the cached id with zero further create-order
POSTs; `get_cart` and `clear_cart` with no current order return an empty
cart and `True` respectively, issuing no request. -/
theorem c7_order_first_workflow (srv : GreenOrderServer) (fetched : Cart) (oid : Int)
    (h1 : srv.create_order_status = 200 ∨ srv.create_order_status = 201)
    (h2 : srv.create_order_id = some oid) (h3 : oid ≠ 0)
    (h4 : srv.add_item_status = 200 ∨ srv.add_item_status = 201) :
    green_add_to_cart srv none = (true, some oid, 1) ∧
    green_add_to_cart srv (some oid) = (true, some oid, 0) ∧
    green_get_cart fetched none = { items := [], subtotal_cents := 0, total_cents := 0 } ∧
    green_clear_cart fetched none = true := by
  have hcreate : green_create_order srv none = (some oid, some oid) := by
    unfold green_create_order
    rw [if_pos h1, h2]
  have htruthy : truthyOrderId (some oid) = true := by
    simp [truthyOrderId, h3]
  refine ⟨?_, ?_, rfl, rfl⟩
  · unfold green_add_to_cart green_ensure_order_exists
    rw [show truthyOrderId none = false from rfl]
    simp only [Bool.false_eq_true, if_false, hcreate]
    rw [htruthy]
    simp [h4]
  · unfold green_add_to_cart green_ensure_order_exists
    rw [htruthy]
    simp [htruthy, h4]

/-- Witness for C7 at concrete inputs: a server that answers the
create-order POST with 201 and id 7 and the add-item POST with 201. -/
theorem c7_witness :
    green_add_to_cart ⟨201, some 7, 201⟩ none = (true, some 7, 1) ∧
    green_add_to_cart ⟨201, some 7, 201⟩ (some 7) = (true, some 7, 0) ∧
    green_get_cart { items := [], subtotal_cents := 0 } none =
      { items := [], subtotal_cents := 0, total_cents := 0 } ∧
    green_clear_cart { items := [], subtotal_cents := 0 } none = true :=
  c7_order_first_workflow ⟨201, some 7, 201⟩ { items := [], subtotal_cents := 0 } 7
    (Or.inr rfl) rfl (by decide) (Or.inr rfl)

/-- C6: the distributor set resolved by `search_all` (the only list for
which clients are constructed and search tasks launched,
`search_aggregator.py` lines 51-74) contains only ordering-enabled
distributors, whatever caller-supplied id subset is passed — so a
distributor with `ordering_enabled = false` never has its adapter
invoked. -/
theorem c6_disabled_distributor_never_searched (all_rows : List DistributorRow)
    (distributor_ids : Option (List Nat)) :
    ((resolveDistributors all_rows distributor_ids).all
      (fun d => d.ordering_enabled)) = true := by
  rw [List.all_eq_true]
  intro d hd
  have hen : d ∈ all_rows.filter (fun d => d.is_active && d.ordering_enabled) := by
    cases distributor_ids with
    | none =>
      simp only [resolveDistributors] at hd
      exact hd
    | some ids =>
      by_cases hids : ids.isEmpty
      · simp only [resolveDistributors, hids, if_true] at hd
        exact hd
      · simp only [resolveDistributors, if_neg hids] at hd
        exact (List.mem_filter.mp hd).1
  have hprop := (List.mem_filter.mp hen).2
  simp only [Bool.and_eq_true] at hprop
  exact hprop.2

/-- C8: the partial-update round-trip law for sessions. After
`_save_session` with any subset of the four optional fields provided,
the session subsequently loaded (the saved row itself,
`distributor_client.py` lines 237-239 and 201-207) carries the provided
values exactly, and every non-provided field keeps the value it had
before the save (the all-null fresh row standing in when no session
existed). -/
theorem c8_save_session_partial_update (prior : Option DistributorSession)
    (cookies headers : Option (List (String × String))) (auth_token : Option String)
    (expires_at : Option Nat) (now : Nat) :
    (∀ x, cookies = some x →
      (save_session prior cookies headers auth_token expires_at now).cookies = some x) ∧
    (cookies = none →
      (save_session prior cookies headers auth_token expires_at now).cookies =
        (prior.getD {}).cookies) ∧
    (∀ x, headers = some x →
      (save_session prior cookies headers auth_token expires_at now).headers = some x) ∧
    (headers = none →
      (save_session prior cookies headers auth_token expires_at now).headers =
        (prior.getD {}).headers) ∧
    (∀ x, auth_token = some x →
      (save_session prior cookies headers auth_token expires_at now).auth_token = some x) ∧
    (auth_token = none →
      (save_session prior cookies headers auth_token expires_at now).auth_token =
        (prior.getD {}).auth_token) ∧
    (∀ x, expires_at = some x →
      (save_session prior cookies headers auth_token expires_at now).expires_at = some x) ∧
    (expires_at = none →
      (save_session prior cookies headers auth_token expires_at now).expires_at =
        (prior.getD {}).expires_at) := by
  refine ⟨?_, ?_, ?_, ?_, ?_, ?_, ?_, ?_⟩
  · intro x hx
    simp [save_session, hx]
  · intro hx
    simp [save_session, hx]
  · intro x hx
    simp [save_session, hx]
  · intro hx
    simp [save_session, hx]
  · intro x hx
    simp [save_session, hx]
  · intro hx
    simp [save_session, hx]
  · intro x hx
    simp [save_session, hx]
  · intro hx
    simp [save_session, hx]

/-- A sample stored session used by the C8 witness. -/
def priorSessionSample : Option DistributorSession :=
  some { cookies := some [("sid", "abc")], auth_token := some "tok", expires_at := some 5 }

/-- Witness for C8 at concrete inputs: saving only headers and expiry
over a session holding cookies, a token and an old expiry keeps the
cookies and token and overwrites the headers and expiry. -/
theorem c8_witness :
    (save_session priorSessionSample none (some [("h1", "t2")]) none (some 99) 50).cookies =
      some [("sid", "abc")] ∧
    (save_session priorSessionSample none (some [("h1", "t2")]) none (some 99) 50).headers =
      some [("h1", "t2")] ∧
    (save_session priorSessionSample none (some [("h1", "t2")]) none (some 99) 50).auth_token =
      some "tok" ∧
    (save_session priorSessionSample none (some [("h1", "t2")]) none (some 99) 50).expires_at =
      some 99 := by
  have h := c8_save_session_partial_update priorSessionSample
    none (some [("h1", "t2")]) none (some 99) 50
  exact ⟨h.2.1 rfl, h.2.2.1 [("h1", "t2")] rfl, h.2.2.2.2.2.1 rfl, h.2.2.2.2.2.2.1 99 rfl⟩

/-- C9: the default `remove_from_cart` called with a SKU not present in
the cart returns `False` before issuing any mutation: no `clear_cart`,
no `add_to_cart`, so the platform cart is untouched on this failure
path. -/
theorem c9_remove_absent_sku_is_noop (cart : Cart) (sku : String)
    (h : ∀ item ∈ cart.items, item.sku ≠ sku) :
    remove_from_cart cart sku = (false, []) := by
  unfold remove_from_cart
  have hfilter : cart.items.filter (fun item => item.sku ≠ sku) = cart.items := by
    apply List.filter_eq_self.mpr
    intro a ha
    exact decide_eq_true (h a ha)
  rw [hfilter, if_pos rfl]

/-- A sample one-item cart used by the C9 witness. -/
def cartSample : Cart :=
  { items := [{ sku := "A", description := "apples", quantity := 2 }], subtotal_cents := 500 }

/-- Witness for C9 at a concrete input: removing "B" from a cart holding
only "A" fails with no mutations issued. -/
theorem c9_witness : remove_from_cart cartSample "B" = (false, []) :=
  c9_remove_absent_sku_is_noop cartSample "B" (by decide)

/-- C10: missing or unparseable prices are coerced to 0 cents rather
than left null. `MetroWholesaleClient._parse_price` returns 0 for the
empty string and for every string whose cleaned form `float` cannot
parse; a FarmDirect search item without a parseable
`onlinecustomerprice` (absent key, or a value on which `float` raises)
yields `price_cents = some 0` — a zero price, not a null one. -/
theorem c10_unparseable_price_coerced_to_zero (s : String) (item : FDItem) :
    metro_parse_price "" = 0 ∧
    (pyFloat? (String.mk (s.toList.filter (fun c => ¬ (c = '$' ∨ c = ',')))) = none →
      metro_parse_price s = 0) ∧
    (item.onlinecustomerprice = none → (fd_parse_item item).price_cents = some 0) ∧
    (∀ v e, item.onlinecustomerprice = some v → jFloat v = .error e →
      (fd_parse_item item).price_cents = some 0) := by
  refine ⟨rfl, ?_, ?_, ?_⟩
  · intro hf
    unfold metro_parse_price
    by_cases hs : s = ""
    · rw [if_pos hs]
    · rw [if_neg hs]
      simp only [hf]
  · intro hnone
    simp [fd_parse_item, fdItemPrice, hnone]
  · intro v e hv he
    simp [fd_parse_item, fdItemPrice, hv, he]

/-- Witness for C10 at concrete inputs: the unparseable price string
"N/A" gives 0 cents, and FarmDirect items with an unparseable or absent
`onlinecustomerprice` give `some 0`. -/
theorem c10_witness :
    metro_parse_price "N/A" = 0 ∧
    (fd_parse_item { onlinecustomerprice := some (.jstr "abc") }).price_cents = some 0 ∧
    (fd_parse_item {}).price_cents = some 0 := by
  have h := c10_unparseable_price_coerced_to_zero "N/A"
    { onlinecustomerprice := some (JVal.jstr "abc") }
  have h2 := c10_unparseable_price_coerced_to_zero "x" ({} : FDItem)
  exact ⟨h.2.1 (by decide), h.2.2.2 (.jstr "abc") .valueError rfl (by decide), h2.2.2.1 rfl⟩
